import Mathlib

/-!
# Verification of the messaging_service identity-resolution and conversation-threading core

Shallow embedding of `src/app.py`, `src/utils/util.py`, `src/utils/db_util.py` and the
SQLAlchemy models under `src/models/`.  JSON payloads are modelled as association lists of
`JValue`s, database tables as Lean lists in a `DB` record, and the `uuid4` row-id defaults
as an explicit id-supply counter carried in the state.  Fallible Python code (raises,
`flask.abort`) is modelled with `Except PyErr`.
-/

set_option autoImplicit false

namespace MessagingService

/-- A JSON value as it appears in a decoded request payload.  `str` and `arr` are the
constructors the validator inspects (`isinstance(value, str)` / `isinstance(value, list)`);
`num` stands for any other JSON value. -/
inductive JValue where
  | str (s : String)
  | arr (xs : List JValue)
  | num (n : Int)

/-- A decoded JSON object (Python `dict`): association list from field name to value. -/
def Payload := List (String × JValue)

/-- `data.get(key)`: the value stored at `key`, or `none` when the key is absent. -/
def pget : Payload → String → Option JValue
  | [], _ => none
  | (k', v) :: rest, k => if k' == k then some v else pget rest k

/-- `data[key] = value` (Python dict assignment), observationally: the updated mapping has
`value` at `key` and is unchanged elsewhere. -/
def pset (data : Payload) (k : String) (v : JValue) : Payload :=
  (k, v) :: List.filter (fun kv => kv.1 != k) data

/-- An ASCII whitespace character, as stripped by Python's `str.strip()`. -/
def isPySpace (c : Char) : Bool := c == ' ' || c == '\t' || c == '\n' || c == '\r'

/-- Drop leading whitespace from a character list. -/
def pyTrimLeftChars : List Char → List Char
  | [] => []
  | c :: cs => if isPySpace c then pyTrimLeftChars cs else c :: cs

/-- Python `str.strip()`: drop leading and trailing whitespace. -/
def pyTrim (s : String) : String :=
  ⟨pyTrimLeftChars ((pyTrimLeftChars s.data.reverse).reverse)⟩

/-- Lower-case every character of a list. -/
def pyLowerChars : List Char → List Char
  | [] => []
  | c :: cs => c.toLower :: pyLowerChars cs

/-- Python `str.lower()` on the ASCII range. -/
def pyLower (s : String) : String := ⟨pyLowerChars s.data⟩

/-- Python `"Z" in s` for the one-character needle used by the validator. -/
def containsZ (s : String) : Bool := s.data.any (fun c => c == 'Z')

/-- `s.replace("Z", "+00:00")` on the character list: a one-character pattern makes the
substring replacement character-wise. -/
def replaceZChars : List Char → List Char
  | [] => []
  | c :: cs =>
      if c == 'Z' then '+' :: '0' :: '0' :: ':' :: '0' :: '0' :: replaceZChars cs
      else c :: replaceZChars cs

/-- Python `s.replace("Z", "+00:00")`. -/
def replaceZ (s : String) : String := ⟨replaceZChars s.data⟩

/-- Errors raised by the embedded Python code.  `httpAbort` is `flask.abort`,
`valueError` a `ValueError`, `typeError` an attribute/type error from dynamic typing, and
`integrityError` a uniqueness-constraint rejection from the storage layer.  All of them
are subclasses of `Exception` and are absorbed by the orchestrator's catch-all handlers. -/
inductive PyErr where
  | httpAbort (code : Nat) (description : String)
  | valueError (msg : String)
  | typeError (msg : String)
  | integrityError (msg : String)
deriving Repr, DecidableEq

/-- The declared type of a payload field (`str`, `datetime`, `list[str]` in
`SMS_PAYLOAD_FIELDS` / `EMAIL_PAYLOAD_FIELDS`). -/
inductive FieldTy where
  | str
  | datetime
  | listStr
deriving Repr, DecidableEq

/-- One entry of a payload field list: `{"field": ..., "type": ..., "required": ...}`. -/
structure FieldSpec where
  field : String
  ty : FieldTy
  required : Bool
deriving Repr, DecidableEq

/-- `SMS_PAYLOAD_FIELDS` (src/app.py, lines 39-47). -/
def SMS_PAYLOAD_FIELDS : List FieldSpec :=
  [ { field := "from", ty := .str, required := true },
    { field := "to", ty := .str, required := true },
    { field := "type", ty := .str, required := true },
    { field := "messaging_provider_id", ty := .str, required := true },
    { field := "timestamp", ty := .datetime, required := true },
    { field := "body", ty := .str, required := false },
    { field := "attachments", ty := .listStr, required := false } ]

/-- `EMAIL_PAYLOAD_FIELDS` (src/app.py, lines 51-58). -/
def EMAIL_PAYLOAD_FIELDS : List FieldSpec :=
  [ { field := "from", ty := .str, required := true },
    { field := "to", ty := .str, required := true },
    { field := "xillio_id", ty := .str, required := true },
    { field := "timestamp", ty := .datetime, required := true },
    { field := "body", ty := .str, required := false },
    { field := "attachments", ty := .listStr, required := false } ]

/-- Well-formedness of a `±HH:MM` UTC-offset suffix (or no suffix at all). -/
def isoOffsetOk : List Char → Bool
  | [] => true
  | [sign, h1, h2, c, m1, m2] =>
      (sign == '+' || sign == '-') && h1.isDigit && h2.isDigit && c == ':' &&
        m1.isDigit && m2.isDigit
  | _ => false

/-- Well-formedness of `YYYY-MM-DD` optionally followed by `THH:MM:SS` and an offset. -/
def isoMainOk : List Char → Bool
  | y1 :: y2 :: y3 :: y4 :: s1 :: mo1 :: mo2 :: s2 :: d1 :: d2 :: rest =>
      y1.isDigit && y2.isDigit && y3.isDigit && y4.isDigit && s1 == '-' &&
      mo1.isDigit && mo2.isDigit && s2 == '-' && d1.isDigit && d2.isDigit &&
      (match rest with
       | [] => true
       | t :: h1 :: h2 :: c1 :: n1 :: n2 :: c2 :: e1 :: e2 :: tail =>
           (t == 'T' || t == ' ') && h1.isDigit && h2.isDigit && c1 == ':' &&
           n1.isDigit && n2.isDigit && c2 == ':' && e1.isDigit && e2.isDigit &&
           isoOffsetOk tail
       | _ => false)
  | _ => false

/-- Modelled from the spec: the Python standard library `datetime.fromisoformat`
(external to this repository), restricted to the ISO-8601 subset
`YYYY-MM-DD[THH:MM:SS[±HH:MM]]` exercised by the service; returns the parsed instant
(represented by its normalized source string) or fails as the library raises
`ValueError`. -/
def fromisoformat (s : String) : Option String :=
  if isoMainOk s.data then some s else none

/-- `check_one_of_fields` (src/utils/util.py, lines 108-132): requires at least one of the
listed fields to be present and, when it is a string, not whitespace-only.  A `None` or
empty `one_of_fields` list is falsy in Python, so no check is made. -/
def check_one_of_fields (data : Payload) (one_of_fields : Option (List String)) :
    Except PyErr Unit :=
  match one_of_fields with
  | none => .ok ()
  | some fields =>
      if fields.isEmpty then .ok ()
      else if fields.any (fun f =>
          match pget data f with
          | none => false
          | some (.str s) => !(pyTrim s == "")
          | some _ => true) then .ok ()
      else .error (.httpAbort 400
        ("one of the following fields must be provided in payload: " ++
          String.intercalate ", " fields))

/-- The body of the per-field loop of `validate_payload` (src/utils/util.py, lines
54-102): the list of error strings contributed by one field descriptor, given the
lower-cased message type. -/
def checkField (data : Payload) (message_type : String) (item : FieldSpec) : List String :=
  let required_field :=
    if message_type == "sms" && item.field == "body" then true
    else if message_type == "mms" && item.field == "attachments" then true
    else item.required
  match pget data item.field with
  | none =>
      if required_field then ["payload missing required field: " ++ item.field] else []
  | some value =>
      match item.ty with
      | .listStr =>
          match value with
          | .arr xs =>
              if xs.all (fun x => match x with | .str _ => true | _ => false) then []
              else ["payload field '" ++ item.field ++ "' must be a list of str"]
          | _ => ["payload field '" ++ item.field ++ "' must be a list of str"]
      | .datetime =>
          match value with
          | .str s =>
              let s' := if containsZ s then replaceZ s else s
              match fromisoformat s' with
              | some _ => []
              | none =>
                  ["payload field '" ++ item.field ++
                    "' must be a valid ISO8601 datetime string"]
          | _ =>
              ["payload field '" ++ item.field ++
                "' must be an ISO8601 string representing datetime"]
      | .str =>
          match value with
          | .str _ => []
          | _ => ["payload field '" ++ item.field ++ "' must be of type str"]

/-- `validate_payload` (src/utils/util.py, lines 15-105). -/
def validate_payload (data : Payload) (payload_fields : List FieldSpec)
    (one_of_fields : Option (List String)) : Except PyErr Unit :=
  match pget data "type" with
  | some (.str message_type0) =>
      let message_type := pyLower message_type0
      if !(["sms", "mms", "email"].contains message_type) then
        .error (.httpAbort 400
          "unsupported 'type' in payload. supported types are 'sms', 'mms', and 'email'")
      else
        match (if message_type == "email" then check_one_of_fields data one_of_fields
               else .ok ()) with
        | .error e => .error e
        | .ok _ =>
            let errors := payload_fields.flatMap (checkField data message_type)
            if errors.isEmpty then .ok ()
            else .error (.httpAbort 400 (String.intercalate "; " errors))
  | _ => .error (.httpAbort 400 "invalid 'type'. 'type' must be a non-empty string")

/-- A row of `customer_comm_methods` (src/models/customer_comm_method.py).  The `type`
enum column is stored as its string value; `label` and `created_at` play no role in the
core's behaviour and are omitted. -/
structure CustomerCommMethod where
  id : String
  customer_id : String
  ty : String
  value : String
deriving Repr, DecidableEq

/-- A row of `customer_contacts` (src/models/customer_contact.py). -/
structure CustomerContact where
  id : String
  customer_id : String
  first_name : Option String
  last_name : Option String
deriving Repr, DecidableEq

/-- A row of `customer_contact_comm_methods` (src/models/customer_contact_comm_method.py),
which carries the uniqueness constraint `uq_contact_comm_type_value` on
`(customer_contact_id, type, value)`. -/
structure CustomerContactCommMethod where
  id : String
  customer_contact_id : String
  ty : String
  value : String
deriving Repr, DecidableEq

/-- A row of `conversations` (src/models/conversation.py).  `participants_key` is an
indexed (but not unique) column. -/
structure Conversation where
  id : String
  customer_id : String
  customer_contact_id : String
  participants_key : String
deriving Repr, DecidableEq

/-- A row of `messages` (src/models/message.py).  `timestamp` holds the parsed instant,
represented by its normalized ISO-8601 source string. -/
structure Message where
  id : String
  conversation_id : String
  from_customer_comm_id : Option String
  to_customer_comm_id : Option String
  from_contact_comm_id : Option String
  to_contact_comm_id : Option String
  messaging_provider_id : Option String
  message_type : Option String
  body : Option String
  attachments : Option String
  timestamp : String
deriving Repr, DecidableEq

/-- The database: one list per table, plus the id supply counter standing for the
`uuid4` defaults on the row-id columns (each consumed id is distinct). -/
structure DB where
  customerComms : List CustomerCommMethod
  contacts : List CustomerContact
  contactComms : List CustomerContactCommMethod
  conversations : List Conversation
  messages : List Message
  nextId : Nat
deriving Repr, DecidableEq

/-- The `n`-th id drawn from the id supply (stands for a fresh `uuid4`). -/
def mkId (n : Nat) : String := "id-" ++ toString n

/-- `get_customer_comm_method_id` (src/utils/db_util.py, lines 13-50).  A pure read: the
source only executes a `SELECT` and never writes, which the embedding reflects by not
returning a database state. -/
def get_customer_comm_method_id (db : DB) (comm_type value : String) :
    Except PyErr (String × String) :=
  let ct := pyLower (pyTrim comm_type)
  let v := pyTrim value
  match db.customerComms.filter (fun r => r.ty == ct && r.value == v) with
  | [] =>
      .error (.valueError ("customer communication method not found for value: " ++ v))
  | [r] => .ok (r.id, r.customer_id)
  | _ :: _ :: _ =>
      .error (.valueError
        ("multiple customer communication methods found for the same value: " ++ v))

/-- The `SELECT ... FROM customer_contact_comm_methods cm INNER JOIN customer_contacts cc`
query of `get_customer_contact_comm_method_id` (src/utils/db_util.py, lines 72-87):
one `(cm.id, cm.customer_contact_id)` row per comm-method/contact pair satisfying the
join and filter conditions. -/
def contactCommJoin (db : DB) (customer_id ct v : String) : List (String × String) :=
  db.contactComms.flatMap (fun cm =>
    if cm.ty == ct && cm.value == v then
      (db.contacts.filter (fun cc =>
        cc.id == cm.customer_contact_id && cc.customer_id == customer_id)).map
        (fun _ => (cm.id, cm.customer_contact_id))
    else [])

/-- `get_customer_contact_comm_method_id` (src/utils/db_util.py, lines 53-115).  The
create path adds the new `CustomerContact` and the new `CustomerContactCommMethod` in the
single commit that ends the unit of work; the storage layer's uniqueness constraint
`uq_contact_comm_type_value` is enforced at that commit. -/
def get_customer_contact_comm_method_id (db : DB) (customer_id comm_type value : String) :
    Except PyErr ((String × String) × DB) :=
  let ct := pyLower (pyTrim comm_type)
  let v := pyTrim value
  match contactCommJoin db customer_id ct v with
  | _ :: _ :: _ =>
      .error (.valueError
        ("multiple customer contacts communication methods found for the same value: " ++ v))
  | [r] => .ok (r, db)
  | [] =>
      let contact_id := mkId db.nextId
      let comm_id := mkId (db.nextId + 1)
      if db.contactComms.any (fun cm =>
          cm.customer_contact_id == contact_id && cm.ty == ct && cm.value == v) then
        .error (.integrityError
          "UNIQUE constraint failed: customer_contact_comm_methods.customer_contact_id, type, value")
      else
        .ok ((comm_id, contact_id),
          { db with
              contacts := db.contacts ++
                [{ id := contact_id, customer_id := customer_id,
                   first_name := none, last_name := none }],
              contactComms := db.contactComms ++
                [{ id := comm_id, customer_contact_id := contact_id, ty := ct, value := v }],
              nextId := db.nextId + 2 })

/-- `get_conversation_id` (src/utils/db_util.py, lines 118-163).  The
`participants_key` column is only indexed, not unique, so the model's create path has no
constraint check. -/
def get_conversation_id (db : DB) (customer_id customer_contact_id participants_key : String) :
    Except PyErr (String × DB) :=
  match db.conversations.filter (fun c => c.participants_key == participants_key) with
  | _ :: _ :: _ =>
      .error (.valueError
        ("multiple conversations found for participants key: " ++ participants_key))
  | c :: _ => .ok (c.id, db)
  | [] =>
      let conv : Conversation :=
        { id := mkId db.nextId, customer_id := customer_id,
          customer_contact_id := customer_contact_id,
          participants_key := participants_key }
      .ok (conv.id, { db with conversations := db.conversations ++ [conv],
                              nextId := db.nextId + 1 })

/-- `save_message` (src/utils/db_util.py, lines 166-178): adds the row and commits.  The
id supply is advanced here for the row id the insert consumes. -/
def save_message (db : DB) (message : Message) : DB :=
  { db with messages := db.messages ++ [message], nextId := db.nextId + 1 }

/-- `MAX_RETRIES` (src/utils/util.py, line 11). -/
def MAX_RETRIES : Nat := 3

/-- `RETRY_DELAY` (src/utils/util.py, line 12), in seconds. -/
def RETRY_DELAY : Nat := 5

/-- The observable outcome of one call to the wrapped delivery function
(`send_message`, src/utils/util.py, lines 135-162): it returns `True` on a 2xx response,
raises `TimeoutError`, or raises some other exception.  A run of the remote endpoint is an
oracle assigning an outcome to each attempt number. -/
inductive CallOutcome where
  | success
  | timeout
  | fatal
deriving Repr, DecidableEq

/-- The trace of one run of the retry wrapper: the returned value, the number of calls
made to the wrapped function, and the `time.sleep` delays in the order they occur. -/
structure RetryTrace where
  result : Bool
  attemptsMade : Nat
  sleeps : List Nat
deriving Repr, DecidableEq

/-- The `for attempt in range(1, MAX_RETRIES + 1)` loop of `api_retry_with_backoff`
(src/utils/util.py, lines 175-189), with `fuel` iterations left and the sleeps so far
accumulated in reverse. -/
def api_retry_go (f : Nat → CallOutcome) (attempt fuel made : Nat) (sleeps : List Nat) :
    RetryTrace :=
  match fuel with
  | 0 => { result := false, attemptsMade := made, sleeps := sleeps.reverse }
  | fuel' + 1 =>
      match f attempt with
      | .success => { result := true, attemptsMade := made + 1, sleeps := sleeps.reverse }
      | .fatal => { result := false, attemptsMade := made + 1, sleeps := sleeps.reverse }
      | .timeout =>
          api_retry_go f (attempt + 1) fuel' (made + 1)
            ((RETRY_DELAY * 2 ^ (attempt - 1)) :: sleeps)

/-- `api_retry_with_backoff` (src/utils/util.py, lines 165-190) applied to a delivery
function whose behaviour is the outcome oracle `f`.  On a successful call it returns the
function's result (`send_message` returns `True`); on a non-timeout exception it breaks
out of the loop; after the loop it returns `False`. -/
def api_retry_with_backoff (f : Nat → CallOutcome) : RetryTrace :=
  api_retry_go f 1 MAX_RETRIES 0 []

/-- Python `<` on strings: lexicographic comparison of code points, on the character
lists. -/
def strListLt : List Char → List Char → Bool
  | [], [] => false
  | [], _ :: _ => true
  | _ :: _, [] => false
  | c :: cs, d :: ds =>
      if c.toNat < d.toNat then true
      else if d.toNat < c.toNat then false
      else strListLt cs ds

/-- Python `<` on strings. -/
def pyStrLt (a b : String) : Bool := strListLt a.data b.data

/-- Python `sorted([a, b])` as a pair: Timsort swaps the two elements exactly when
`b < a`. -/
def sorted2 (a b : String) : String × String := if pyStrLt b a then (b, a) else (a, b)

/-- `",".join(sorted([customer_id, customer_contact_id]))` (src/app.py, line 264). -/
def participantsKey (x y : String) : String :=
  (sorted2 x y).1 ++ "," ++ (sorted2 x y).2

/-- The tuple returned by `get_participants` (src/app.py, lines 240-271). -/
structure Participants where
  customer_comm_method_id : String
  contact_comm_method_id : String
  customer_id : String
  customer_contact_id : String
  participants_key : String
deriving Repr, DecidableEq

/-- `data.get(key)` used where the source then calls `.strip()` on the result: a missing
key or a non-string value raises (`AttributeError`) inside the callee; the embedding
raises the same class of error before the call. -/
def asStr : Option JValue → Except PyErr String
  | some (.str s) => .ok s
  | _ => .error (.typeError "expected a string value")

/-- `get_participants` (src/app.py, lines 240-271). -/
def get_participants (db : DB) (data : Payload) (message_direction comm_type : String) :
    Except PyErr (Participants × DB) :=
  let from_address := pget data "from"
  let to_address := pget data "to"
  match asStr (if message_direction == "inbound" then to_address else from_address) with
  | .error e => .error e
  | .ok customer_value =>
      match get_customer_comm_method_id db comm_type customer_value with
      | .error e => .error e
      | .ok (customer_comm_method_id, customer_id) =>
          match asStr (if message_direction == "inbound" then from_address
                       else to_address) with
          | .error e => .error e
          | .ok contact_value =>
              match get_customer_contact_comm_method_id db customer_id comm_type
                  contact_value with
              | .error e => .error e
              | .ok ((contact_comm_method_id, customer_contact_id), db') =>
                  .ok ({ customer_comm_method_id := customer_comm_method_id,
                         contact_comm_method_id := contact_comm_method_id,
                         customer_id := customer_id,
                         customer_contact_id := customer_contact_id,
                         participants_key :=
                           participantsKey customer_id customer_contact_id }, db')

/-- `data.get(key)` used where the source stores the result in a string column; a
non-string value is not representable in the column model. -/
def asOptStr : Option JValue → Option String
  | some (.str s) => some s
  | _ => none

/-- Modelled from the spec: the Python standard library `json.dumps` (external to this
repository) on an attachment list; nested values below the first level are abbreviated. -/
def jsonDumpsTop : JValue → String
  | .str s => "\x22" ++ s ++ "\x22"
  | .num n => toString n
  | .arr xs =>
      "[" ++ String.intercalate ", "
        (xs.map (fun x =>
          match x with
          | .str s => "\x22" ++ s ++ "\x22"
          | .num n => toString n
          | .arr _ => "[...]")) ++ "]"

/-- `create_message` (src/app.py, lines 274-328): builds the `Message` row, picking the
directional reference columns from `message_direction`, and saves it.  A missing
`timestamp` raises (`AttributeError` on `.replace`), an unparsable one raises
`ValueError` in `datetime.fromisoformat`. -/
def create_message (db : DB) (data : Payload)
    (conversation_id customer_comm_method_id contact_comm_method_id
      message_direction comm_type : String) : Except PyErr (Message × DB) :=
  let messaging_provider_id := asOptStr
    (pget data (if comm_type == "phone" then "messaging_provider_id" else "xillio_id"))
  let message_type := asOptStr (pget data "type")
  let body := asOptStr (pget data "body")
  let attachments := (pget data "attachments").map jsonDumpsTop
  match asStr (pget data "timestamp") with
  | .error e => .error e
  | .ok ts_raw =>
  match fromisoformat (replaceZ ts_raw) with
  | none => .error (.valueError ("Invalid isoformat string: " ++ ts_raw))
  | some timestamp =>
      let message : Message :=
        { id := mkId db.nextId,
          conversation_id := conversation_id,
          to_customer_comm_id :=
            if message_direction == "inbound" then some customer_comm_method_id else none,
          from_customer_comm_id :=
            if message_direction == "outbound" then some customer_comm_method_id else none,
          from_contact_comm_id :=
            if message_direction == "inbound" then some contact_comm_method_id else none,
          to_contact_comm_id :=
            if message_direction == "outbound" then some contact_comm_method_id else none,
          messaging_provider_id := messaging_provider_id,
          message_type := message_type,
          body := body,
          attachments := attachments,
          timestamp := timestamp }
      .ok (message, save_message db message)

/-- `process_inbound_message` (src/app.py, lines 122-173).  The result is the HTTP status
code paired with the database state when the response is produced: the `except Exception`
handler turns every raised error into a 400 response, and writes committed before the
failing step persist. -/
def process_inbound_message (db : DB) (data : Payload) (comm_type : String)
    (payload_fields : List FieldSpec) (optional_fields : Option (List String)) :
    Nat × DB :=
  match validate_payload data payload_fields optional_fields with
  | .error _ => (400, db)
  | .ok _ =>
      match get_participants db data "inbound" comm_type with
      | .error _ => (400, db)
      | .ok (p, db1) =>
          match get_conversation_id db1 p.customer_id p.customer_contact_id
              p.participants_key with
          | .error _ => (400, db1)
          | .ok (conversation_id, db2) =>
              match create_message db2 data conversation_id p.customer_comm_method_id
                  p.contact_comm_method_id "inbound" comm_type with
              | .error _ => (400, db2)
              | .ok (_, db3) => (200, db3)

/-- `process_outbound_message` (src/app.py, lines 176-237).  The outbound URL argument is
subsumed by the delivery oracle `delivery`; a falsy retry result produces the 500
response before any conversation or message row is written. -/
def process_outbound_message (db : DB) (data : Payload) (comm_type : String)
    (payload_fields : List FieldSpec) (delivery : Nat → CallOutcome) : Nat × DB :=
  match validate_payload data payload_fields none with
  | .error _ => (400, db)
  | .ok _ =>
      match get_participants db data "outbound" comm_type with
      | .error _ => (400, db)
      | .ok (p, db1) =>
          if !(api_retry_with_backoff delivery).result then (500, db1)
          else
            match get_conversation_id db1 p.customer_id p.customer_contact_id
                p.participants_key with
            | .error _ => (400, db1)
            | .ok (conversation_id, db2) =>
                match create_message db2 data conversation_id p.customer_comm_method_id
                    p.contact_comm_method_id "outbound" comm_type with
                | .error _ => (400, db2)
                | .ok (_, db3) => (200, db3)

/-- The `/api/inbound_sms` route body after JSON decoding (src/app.py, lines 64-73). -/
def inbound_sms (db : DB) (data : Payload) : Nat × DB :=
  process_inbound_message db data "phone" SMS_PAYLOAD_FIELDS none

/-- The `/api/outbound_sms` route body after JSON decoding (src/app.py, lines 76-88):
drops the `messaging_provider_id` field descriptor before processing. -/
def outbound_sms (db : DB) (data : Payload) (delivery : Nat → CallOutcome) : Nat × DB :=
  process_outbound_message db data "phone"
    (SMS_PAYLOAD_FIELDS.filter (fun f => f.field != "messaging_provider_id")) delivery

/-- The `/api/inbound_email` route body after JSON decoding (src/app.py, lines 91-104):
forces `data["type"] = "email"` and requires one of `body`/`attachments`. -/
def inbound_email (db : DB) (data : Payload) : Nat × DB :=
  process_inbound_message db (pset data "type" (.str "email")) "email"
    EMAIL_PAYLOAD_FIELDS (some ["body", "attachments"])

/-- The `/api/outbound_email` route body after JSON decoding (src/app.py, lines 107-119):
forces `data["type"] = "email"` and drops the `xillio_id` field descriptor.  No
`optional_fields` argument exists on the outbound path. -/
def outbound_email (db : DB) (data : Payload) (delivery : Nat → CallOutcome) : Nat × DB :=
  process_outbound_message db (pset data "type" (.str "email")) "email"
    (EMAIL_PAYLOAD_FIELDS.filter (fun f => f.field != "xillio_id")) delivery

/-! ## Helper lemmas -/

theorem strListLt_asymm (a b : List Char) (h : strListLt a b = true) :
    strListLt b a = false := by
  induction a generalizing b with
  | nil =>
    cases b with
    | nil => simp [strListLt] at h
    | cons d ds => simp [strListLt]
  | cons c cs ih =>
    cases b with
    | nil => simp [strListLt] at h
    | cons d ds =>
      simp only [strListLt] at h ⊢
      by_cases h1 : c.toNat < d.toNat
      · rw [if_neg (by omega), if_pos h1]
      · by_cases h2 : d.toNat < c.toNat
        · rw [if_neg h1, if_pos h2] at h
          exact absurd h (by simp)
        · rw [if_neg h1, if_neg h2] at h
          rw [if_neg h2, if_neg h1]
          exact ih ds h

theorem strListLt_antisymm (a b : List Char) (hab : strListLt a b = false)
    (hba : strListLt b a = false) : a = b := by
  induction a generalizing b with
  | nil =>
    cases b with
    | nil => rfl
    | cons d ds => simp [strListLt] at hab
  | cons c cs ih =>
    cases b with
    | nil => simp [strListLt] at hba
    | cons d ds =>
      simp only [strListLt] at hab hba
      by_cases h1 : c.toNat < d.toNat
      · rw [if_pos h1] at hab
        exact absurd hab (by simp)
      · by_cases h2 : d.toNat < c.toNat
        · rw [if_pos h2] at hba
          exact absurd hba (by simp)
        · rw [if_neg h1, if_neg h2] at hab
          rw [if_neg h2, if_neg h1] at hba
          have hcd : c = d := Char.ext (UInt32.ext (Nat.le_antisymm
            (Nat.not_lt.mp h2) (Nat.not_lt.mp h1)))
          rw [hcd, ih ds hab hba]

/-- `sorted([a, b])` joins the two ids the same way whichever argument order the request
direction produces. -/
theorem participantsKey_comm (x y : String) :
    participantsKey x y = participantsKey y x := by
  unfold participantsKey sorted2 pyStrLt
  by_cases h1 : strListLt y.data x.data = true
  · rw [h1, strListLt_asymm _ _ h1]; simp
  · have h1' : strListLt y.data x.data = false := by
      cases hx : strListLt y.data x.data
      · rfl
      · exact absurd hx h1
    rw [h1']
    by_cases h2 : strListLt x.data y.data = true
    · rw [h2]; simp
    · have h2' : strListLt x.data y.data = false := by
        cases hx : strListLt x.data y.data
        · rfl
        · exact absurd hx h2
      rw [h2']
      have hdata : x.data = y.data := strListLt_antisymm _ _ h2' h1'
      have hxy : x = y := by
        cases x; cases y; simp only at hdata; rw [hdata]
      rw [hxy]

/-- Whatever the message direction, the tuple `get_participants` returns carries the
participants key computed from its own customer and contact ids. -/
theorem get_participants_key_shape (db : DB) (data : Payload) (md ct : String)
    (p : Participants) (db1 : DB)
    (h : get_participants db data md ct = .ok (p, db1)) :
    p.participants_key = participantsKey p.customer_id p.customer_contact_id := by
  simp only [get_participants] at h
  split at h
  · simp at h
  · split at h
    · simp at h
    · split at h
      · simp at h
      · split at h
        · simp at h
        · rw [Except.ok.injEq, Prod.mk.injEq] at h
          rw [← h.1]

/-- A successful `get_conversation_id` is idempotent: calling again on the state it
returned yields the same conversation id and the same state. -/
theorem get_conversation_id_repeat (db : DB) (cid ctid k id1 : String) (db1 : DB)
    (h : get_conversation_id db cid ctid k = .ok (id1, db1)) :
    get_conversation_id db1 cid ctid k = .ok (id1, db1) := by
  simp only [get_conversation_id] at h ⊢
  rcases hf : db.conversations.filter (fun c => c.participants_key == k) with
    _ | ⟨c1, rest⟩
  · rw [hf] at h
    simp only [] at h
    rw [Except.ok.injEq, Prod.mk.injEq] at h
    obtain ⟨hid, hdb⟩ := h
    subst hdb
    have hf1 : ({ db with
        conversations := db.conversations ++
          [{ id := mkId db.nextId, customer_id := cid, customer_contact_id := ctid,
             participants_key := k }],
        nextId := db.nextId + 1 } : DB).conversations.filter
          (fun c => c.participants_key == k) =
        [{ id := mkId db.nextId, customer_id := cid, customer_contact_id := ctid,
           participants_key := k }] := by
      simp only [List.filter_append, hf]
      simp
    rw [hf1]
    show Except.ok ((mkId db.nextId : String), _) = _
    rw [hid]
  · rcases rest with _ | ⟨c2, rest2⟩
    · rw [hf] at h
      simp only [] at h
      rw [Except.ok.injEq, Prod.mk.injEq] at h
      obtain ⟨hid, hdb⟩ := h
      subst hdb
      rw [hf]
      show Except.ok (c1.id, db) = Except.ok (id1, db)
      rw [hid]
    · rw [hf] at h
      simp at h

/-- With no conversation under the key, `get_conversation_id` creates one with the next
fresh id and appends exactly that row. -/
theorem get_conversation_id_create (db : DB) (cid ctid k : String)
    (hf : db.conversations.filter (fun c => c.participants_key == k) = []) :
    ∃ db1, get_conversation_id db cid ctid k = .ok (mkId db.nextId, db1) ∧
      db1.conversations = db.conversations ++
        [{ id := mkId db.nextId, customer_id := cid, customer_contact_id := ctid,
           participants_key := k }] := by
  refine ⟨{ db with
      conversations := db.conversations ++
        [{ id := mkId db.nextId, customer_id := cid, customer_contact_id := ctid,
           participants_key := k }],
      nextId := db.nextId + 1 }, ?_, rfl⟩
  simp only [get_conversation_id]
  rw [hf]

/-- After the create path of `get_customer_contact_comm_method_id` appends a fresh
contact `nc` and its comm method `nm`, the lookup join for the same key finds exactly the
new row. -/
theorem contactCommJoin_after_create (db : DB) (cid ct v : String) (n : Nat)
    (nc : CustomerContact) (nm : CustomerContactCommMethod)
    (hnc_id : nc.id = nm.customer_contact_id) (hnc_cust : nc.customer_id = cid)
    (hnm_ty : nm.ty = ct) (hnm_v : nm.value = v)
    (hnone : contactCommJoin db cid ct v = [])
    (hfreshComm : ∀ cm ∈ db.contactComms, cm.customer_contact_id ≠ nc.id)
    (hfreshContact : ∀ cc ∈ db.contacts, cc.id ≠ nc.id) :
    contactCommJoin { db with contacts := db.contacts ++ [nc],
                              contactComms := db.contactComms ++ [nm],
                              nextId := n } cid ct v =
      [(nm.id, nm.customer_contact_id)] := by
  have hper := List.flatMap_eq_nil_iff.mp hnone
  simp only [contactCommJoin] at hper ⊢
  rw [List.flatMap_append]
  have h1 : db.contactComms.flatMap (fun cm =>
      if cm.ty == ct && cm.value == v then
        ((db.contacts ++ [nc]).filter (fun cc =>
          cc.id == cm.customer_contact_id && cc.customer_id == cid)).map
          (fun _ => (cm.id, cm.customer_contact_id))
      else []) = [] := by
    rw [List.flatMap_eq_nil_iff]
    intro cm hcm
    by_cases hm : (cm.ty == ct && cm.value == v) = true
    · rw [if_pos hm]
      have hold := hper cm hcm
      rw [if_pos hm] at hold
      have hfilter : db.contacts.filter (fun cc =>
          cc.id == cm.customer_contact_id && cc.customer_id == cid) = [] :=
        List.map_eq_nil_iff.mp hold
      rw [List.filter_append, hfilter]
      have hbeq : (nc.id == cm.customer_contact_id) = false := by
        cases hx : nc.id == cm.customer_contact_id
        · rfl
        · exact absurd (beq_iff_eq.mp hx).symm (hfreshComm cm hcm)
      simp [List.filter, hbeq]
    · rw [if_neg hm]
  rw [h1]
  simp only [List.flatMap_cons, List.flatMap_nil, List.append_nil, List.nil_append]
  rw [if_pos (by rw [hnm_ty, hnm_v]; simp)]
  rw [List.filter_append]
  have hold : db.contacts.filter (fun cc =>
      cc.id == nm.customer_contact_id && cc.customer_id == cid) = [] := by
    rw [List.filter_eq_nil_iff]
    intro cc hcc
    simp only [Bool.and_eq_true, beq_iff_eq, not_and]
    intro h
    exact absurd (h.trans hnc_id.symm) (hfreshContact cc hcc)
  rw [hold]
  have hone : List.filter (fun cc =>
      cc.id == nm.customer_contact_id && cc.customer_id == cid) [nc] = [nc] := by
    simp [List.filter, hnc_id, hnc_cust]
  rw [hone]
  simp

/-- `get_customer_contact_comm_method_id` never writes to the `messages` or
`conversations` tables. -/
theorem contact_comm_preserves (db : DB) (cid ct v : String) (r : String × String)
    (db' : DB) (h : get_customer_contact_comm_method_id db cid ct v = .ok (r, db')) :
    db'.messages = db.messages ∧ db'.conversations = db.conversations := by
  simp only [get_customer_contact_comm_method_id] at h
  rcases hJ : contactCommJoin db cid (pyLower (pyTrim ct)) (pyTrim v) with
    _ | ⟨r1, _ | ⟨r2, rs⟩⟩
  · rw [hJ] at h
    simp only [] at h
    split at h
    · simp at h
    · rw [Except.ok.injEq, Prod.mk.injEq] at h
      rw [← h.2]
      exact ⟨rfl, rfl⟩
  · rw [hJ] at h
    simp only [] at h
    rw [Except.ok.injEq, Prod.mk.injEq] at h
    rw [← h.2]
    exact ⟨rfl, rfl⟩
  · rw [hJ] at h
    simp at h

/-- `get_participants` resolves identities only: it never writes to the `messages` or
`conversations` tables. -/
theorem get_participants_preserves (db : DB) (data : Payload) (md ct : String)
    (p : Participants) (db1 : DB)
    (h : get_participants db data md ct = .ok (p, db1)) :
    db1.messages = db.messages ∧ db1.conversations = db.conversations := by
  simp only [get_participants] at h
  split at h
  · simp at h
  · split at h
    · simp at h
    · split at h
      · simp at h
      · split at h
        · simp at h
        · rename_i heq
          rw [Except.ok.injEq, Prod.mk.injEq] at h
          rw [← h.2]
          exact contact_comm_preserves _ _ _ _ _ _ heq

theorem pget_filter_ne (l : List (String × JValue)) (k k' : String)
    (h : (k == k') = false) :
    pget (l.filter (fun kv => kv.1 != k)) k' = pget l k' := by
  induction l with
  | nil => rfl
  | cons a rest ih =>
    obtain ⟨ak, av⟩ := a
    by_cases hk : (ak == k) = true
    · have hk' : (ak == k') = false := by
        cases hx : ak == k'
        · rfl
        · rw [beq_iff_eq.mp hk] at hx
          rw [hx] at h
          exact absurd h (by simp)
      rw [List.filter_cons_of_neg (by simp [bne, hk])]
      rw [ih]
      show pget rest k' = if (ak == k') = true then some av else pget rest k'
      rw [if_neg (by simp [hk'])]
    · have hk2 : (ak == k) = false := by
        cases hx : ak == k
        · rfl
        · exact absurd hx hk
      rw [List.filter_cons_of_pos (by simp [bne, hk2])]
      show (if (ak == k') = true then some av else
        pget (rest.filter (fun kv => kv.1 != k)) k') =
        if (ak == k') = true then some av else pget rest k'
      cases hx : ak == k'
      · rw [if_neg (by simp), if_neg (by simp), ih]
      · rw [if_pos rfl, if_pos rfl]

/-- After `data[k] = v`, looking up `k` yields `v`. -/
theorem pget_pset_self (data : Payload) (k : String) (v : JValue) :
    pget (pset data k v) k = some v := by
  simp [pget, pset]

/-- After `data[k] = v`, looking up any other key is unchanged. -/
theorem pget_pset_ne (data : Payload) (k k' : String) (v : JValue)
    (h : (k == k') = false) : pget (pset data k v) k' = pget data k' := by
  show (if (k == k') = true then some v else
    pget (data.filter (fun kv => kv.1 != k)) k') = pget data k'
  rw [if_neg (by simp [h]), pget_filter_ne data k k' h]

/-! ## The two storage phases of the contact find-or-create call

Under concurrency, the `SELECT` of one `get_customer_contact_comm_method_id` call and its
`INSERT`/`COMMIT` are separate storage interactions: another request's commit may land in
between.  The two phases below are the halves of the source function (its lines 72-95 and
97-115); `get_contact_phase_decomposition` proves that running them back to back on the
same state is exactly the sequential function. -/

/-- The lookup phase (src/utils/db_util.py, lines 72-95): `some` when the call completes
during the phase (found, or ambiguous), `none` when it falls through to the create
phase. -/
def contact_resolve_phase (db : DB) (customer_id comm_type value : String) :
    Option (Except PyErr (String × String)) :=
  let ct := pyLower (pyTrim comm_type)
  let v := pyTrim value
  match contactCommJoin db customer_id ct v with
  | _ :: _ :: _ =>
      some (.error (.valueError
        ("multiple customer contacts communication methods found for the same value: "
          ++ v)))
  | [r] => some (.ok r)
  | [] => none

/-- The create phase (src/utils/db_util.py, lines 97-115): inserts the new contact and
comm method and commits against the state current at commit time, the storage layer
checking `uq_contact_comm_type_value` there. -/
def contact_create_phase (db : DB) (customer_id comm_type value : String) :
    Except PyErr ((String × String) × DB) :=
  let ct := pyLower (pyTrim comm_type)
  let v := pyTrim value
  let contact_id := mkId db.nextId
  let comm_id := mkId (db.nextId + 1)
  if db.contactComms.any (fun cm =>
      cm.customer_contact_id == contact_id && cm.ty == ct && cm.value == v) then
    .error (.integrityError
      "UNIQUE constraint failed: customer_contact_comm_methods.customer_contact_id, type, value")
  else
    .ok ((comm_id, contact_id),
      { db with
          contacts := db.contacts ++
            [{ id := contact_id, customer_id := customer_id,
               first_name := none, last_name := none }],
          contactComms := db.contactComms ++
            [{ id := comm_id, customer_contact_id := contact_id, ty := ct, value := v }],
          nextId := db.nextId + 2 })

/-- Running the two phases back to back on one state is exactly the sequential
`get_customer_contact_comm_method_id`. -/
theorem get_contact_phase_decomposition (db : DB) (customer_id comm_type value : String) :
    get_customer_contact_comm_method_id db customer_id comm_type value =
      match contact_resolve_phase db customer_id comm_type value with
      | some (.error e) => .error e
      | some (.ok r) => .ok (r, db)
      | none => contact_create_phase db customer_id comm_type value := by
  simp only [get_customer_contact_comm_method_id, contact_resolve_phase,
    contact_create_phase]
  rcases hJ : contactCommJoin db customer_id (pyLower (pyTrim comm_type)) (pyTrim value)
    with _ | ⟨r, _ | ⟨r2, rs⟩⟩ <;> rfl

/-! ## Concrete states and payloads used by the witnesses -/

/-- A database provisioned with a single customer phone comm method, as
`create_sample_data` provisions `+12155550000` for its first customer. -/
def sampleDb : DB :=
  { customerComms :=
      [{ id := "ccm-1", customer_id := "cust-1", ty := "phone", value := "+12155550000" }],
    contacts := [], contactComms := [], conversations := [], messages := [],
    nextId := 0 }

/-- An outbound sms payload from the provisioned customer number to a yet-unknown
contact number. -/
def outSmsPayload : Payload :=
  [("from", .str "+12155550000"), ("to", .str "+15551230001"), ("type", .str "sms"),
   ("timestamp", .str "2024-01-01T10:00:00+00:00"), ("body", .str "hi")]

/-- The participants tuple `get_participants` resolves for `outSmsPayload` on
`sampleDb`. -/
def outSmsParticipants : Participants :=
  { customer_comm_method_id := "ccm-1", contact_comm_method_id := "id-1",
    customer_id := "cust-1", customer_contact_id := "id-0",
    participants_key := "cust-1,id-0" }

/-- `sampleDb` after `get_participants` lazily created the contact for
`+15551230001`. -/
def sampleDbAfterResolve : DB :=
  { sampleDb with
      contacts := [{ id := "id-0", customer_id := "cust-1",
                     first_name := none, last_name := none }],
      contactComms := [{ id := "id-1", customer_contact_id := "id-0",
                         ty := "phone", value := "+15551230001" }],
      nextId := 2 }

/-- An inbound sms payload addressed to the provisioned customer number. -/
def inSmsPayload : Payload :=
  [("from", .str "+15551230001"), ("to", .str "+12155550000"), ("type", .str "sms"),
   ("messaging_provider_id", .str "mp-1"),
   ("timestamp", .str "2024-01-01T10:00:00+00:00"), ("body", .str "hi")]

/-- A database whose uniqueness invariant is violated: two provisioned customer comm
methods share `("phone", "+12155550000")`. -/
def dbAmbiguous : DB :=
  { sampleDb with
      customerComms :=
        [{ id := "ccm-1", customer_id := "cust-1", ty := "phone",
           value := "+12155550000" },
         { id := "ccm-9", customer_id := "cust-9", ty := "phone",
           value := "+12155550000" }] }

/-- A database provisioned with a single customer email comm method. -/
def dbEmail : DB :=
  { customerComms :=
      [{ id := "ccm-2", customer_id := "cust-2", ty := "email",
         value := "info@acme.com" }],
    contacts := [], contactComms := [], conversations := [], messages := [],
    nextId := 0 }

/-- An outbound email payload carrying neither `body` nor `attachments`. -/
def outEmailNoContent : Payload :=
  [("from", .str "info@acme.com"), ("to", .str "jane@x.com"),
   ("timestamp", .str "2024-01-01T10:00:00+00:00")]

/-- `sampleDbAfterResolve` once the conversation between `cust-1` and `id-0` exists. -/
def sampleDbWithConv : DB :=
  { sampleDbAfterResolve with
      conversations := [{ id := "id-2", customer_id := "cust-1",
                          customer_contact_id := "id-0",
                          participants_key := "cust-1,id-0" }],
      nextId := 3 }

/-! ## Claim theorems -/

/-- **C6.** Conversation resolution is commutative and idempotent: the participants key
is the lexicographically sorted comma-join of the pair — identical whichever party is
"from", and identical to the key `get_participants` attaches in either direction — and
repeated `get_conversation_id` calls for the same pair return the same conversation id,
the first call creating the row (with the next fresh id) and later calls finding it. -/
theorem conversation_resolution_idempotent (db : DB) (data : Payload)
    (message_direction comm_type customer_id customer_contact_id : String) :
    participantsKey customer_id customer_contact_id =
      participantsKey customer_contact_id customer_id ∧
    (∀ p db1, get_participants db data message_direction comm_type = .ok (p, db1) →
      p.participants_key = participantsKey p.customer_id p.customer_contact_id) ∧
    (∀ id1 db1, get_conversation_id db customer_id customer_contact_id
        (participantsKey customer_id customer_contact_id) = .ok (id1, db1) →
      get_conversation_id db1 customer_id customer_contact_id
        (participantsKey customer_id customer_contact_id) = .ok (id1, db1)) ∧
    (db.conversations.filter (fun c =>
        c.participants_key == participantsKey customer_id customer_contact_id) = [] →
      ∃ db1, get_conversation_id db customer_id customer_contact_id
          (participantsKey customer_id customer_contact_id) =
            .ok (mkId db.nextId, db1) ∧
        db1.conversations = db.conversations ++
          [{ id := mkId db.nextId, customer_id := customer_id,
             customer_contact_id := customer_contact_id,
             participants_key := participantsKey customer_id customer_contact_id }]) :=
  ⟨participantsKey_comm customer_id customer_contact_id,
    fun p db1 h => get_participants_key_shape db data message_direction comm_type p db1 h,
    fun id1 db1 h => get_conversation_id_repeat db customer_id customer_contact_id _
      id1 db1 h,
    fun hf => get_conversation_id_create db customer_id customer_contact_id _ hf⟩

/-- Witness for C6 on `sampleDb`: the key resolved outbound equals the sorted join, the
first call creates conversation `id-2`, and a repeat call on the produced state returns
the same id and state. -/
theorem conversation_resolution_idempotent_witness :
    (outSmsParticipants.participants_key =
      participantsKey outSmsParticipants.customer_id
        outSmsParticipants.customer_contact_id) ∧
    (∃ db1, get_conversation_id sampleDbAfterResolve "cust-1" "id-0"
        (participantsKey "cust-1" "id-0") = .ok (mkId sampleDbAfterResolve.nextId, db1) ∧
      db1.conversations = sampleDbAfterResolve.conversations ++
        [{ id := mkId sampleDbAfterResolve.nextId, customer_id := "cust-1",
           customer_contact_id := "id-0",
           participants_key := participantsKey "cust-1" "id-0" }]) ∧
    get_conversation_id sampleDbWithConv "cust-1" "id-0"
        (participantsKey "cust-1" "id-0") = .ok ("id-2", sampleDbWithConv) :=
  ⟨(conversation_resolution_idempotent sampleDb outSmsPayload "outbound" "phone"
      "cust-1" "id-0").2.1 outSmsParticipants sampleDbAfterResolve (by rfl),
    (conversation_resolution_idempotent sampleDbAfterResolve outSmsPayload "outbound"
      "phone" "cust-1" "id-0").2.2.2 (by rfl),
    (conversation_resolution_idempotent sampleDbWithConv outSmsPayload "outbound"
      "phone" "cust-1" "id-0").2.2.1 "id-2" sampleDbWithConv (by rfl)⟩

/-- **C3.** For every delivery function raising a timeout on each call, the retry wrapper
with `MAX_RETRIES = 3` and `RETRY_DELAY = 5` makes exactly 3 delivery attempts, the delay
before attempt `k` (`k ≥ 2`) being `RETRY_DELAY * 2 ^ (k - 2)` — 5s before attempt 2
(`sleeps[0]`) and 10s before attempt 3 (`sleeps[1]`) — and then reports failure without
making a 4th attempt. -/
theorem backoff_schedule (f : Nat → CallOutcome) (h : ∀ k, f k = .timeout) :
    (api_retry_with_backoff f).result = false ∧
    (api_retry_with_backoff f).attemptsMade = MAX_RETRIES ∧
    (api_retry_with_backoff f).sleeps.get? 0 = some (RETRY_DELAY * 2 ^ (2 - 2)) ∧
    (api_retry_with_backoff f).sleeps.get? 1 = some (RETRY_DELAY * 2 ^ (3 - 2)) := by
  have e : api_retry_with_backoff f =
      { result := false, attemptsMade := 3, sleeps := [5, 10, 20] } := by
    simp [api_retry_with_backoff, api_retry_go, MAX_RETRIES, RETRY_DELAY, h]
  rw [e]
  exact ⟨rfl, by decide, by decide, by decide⟩

/-- Witness for C3 at the everywhere-timing-out delivery oracle. -/
theorem backoff_schedule_witness :
    (api_retry_with_backoff (fun _ => .timeout)).result = false ∧
    (api_retry_with_backoff (fun _ => .timeout)).attemptsMade = MAX_RETRIES ∧
    (api_retry_with_backoff (fun _ => .timeout)).sleeps.get? 0 =
      some (RETRY_DELAY * 2 ^ (2 - 2)) ∧
    (api_retry_with_backoff (fun _ => .timeout)).sleeps.get? 1 =
      some (RETRY_DELAY * 2 ^ (3 - 2)) :=
  backoff_schedule (fun _ => .timeout) (fun _ => rfl)

/-- **C7.** If the wrapped delivery function raises a non-timeout exception at attempt
`j` (after timeouts only), the retry wrapper stops after exactly `j` attempts — no
further attempt — and returns the boolean failure value `False`; and exhausting
`MAX_RETRIES` on repeated timeouts likewise returns `False` rather than letting an
exception propagate (the wrapper's result type is a plain value: its `except` arms absorb
every exception of the wrapped call). -/
theorem retry_failure_contract (f : Nat → CallOutcome) :
    (∀ j, 1 ≤ j → j ≤ MAX_RETRIES → (∀ k, 1 ≤ k → k < j → f k = .timeout) →
      f j = .fatal →
      (api_retry_with_backoff f).result = false ∧
        (api_retry_with_backoff f).attemptsMade = j) ∧
    ((∀ k, f k = .timeout) →
      (api_retry_with_backoff f).result = false ∧
        (api_retry_with_backoff f).attemptsMade = MAX_RETRIES) := by
  constructor
  · intro j h1 h2 ht hf
    have h2' : j ≤ 3 := h2
    interval_cases j
    · simp [api_retry_with_backoff, api_retry_go, MAX_RETRIES, RETRY_DELAY, hf]
    · have t1 := ht 1 (by omega) (by omega)
      simp [api_retry_with_backoff, api_retry_go, MAX_RETRIES, RETRY_DELAY, t1, hf]
    · have t1 := ht 1 (by omega) (by omega)
      have t2 := ht 2 (by omega) (by omega)
      simp [api_retry_with_backoff, api_retry_go, MAX_RETRIES, RETRY_DELAY, t1, t2, hf]
  · intro h
    simp [api_retry_with_backoff, api_retry_go, MAX_RETRIES, RETRY_DELAY, h]

/-- Witness for C7: a fatal error at attempt 2 after one timeout stops the wrapper at 2
attempts with result `False`; all-timeouts stops at `MAX_RETRIES` with result `False`. -/
theorem retry_failure_contract_witness :
    ((api_retry_with_backoff (fun k => if k == 1 then .timeout else .fatal)).result =
        false ∧
      (api_retry_with_backoff (fun k => if k == 1 then .timeout else .fatal)).attemptsMade
        = 2) ∧
    ((api_retry_with_backoff (fun _ => .timeout)).result = false ∧
      (api_retry_with_backoff (fun _ => .timeout)).attemptsMade = MAX_RETRIES) :=
  ⟨(retry_failure_contract (fun k => if k == 1 then .timeout else .fatal)).1 2
      (by decide) (by decide)
      (fun k hk1 hk2 => by
        have hk : k = 1 := le_antisymm (by omega) hk1
        subst hk; rfl)
      rfl,
    (retry_failure_contract (fun _ => .timeout)).2 (fun _ => rfl)⟩

/-- **C4.** `get_customer_comm_method_id` never creates rows (the embedding is a pure
read, as the source only executes a `SELECT`): with exactly one row of
`customer_comm_methods` matching the normalized key it returns that row's
`(comm_method_id, customer_id)`; with zero matches it fails with the NotFound-class
`ValueError`; with more than one match it fails with the AmbiguousIdentity-class
`ValueError`. -/
theorem customer_comm_lookup_contract (db : DB) (comm_type value : String) :
    (∀ r, db.customerComms.filter
        (fun m => m.ty == pyLower (pyTrim comm_type) && m.value == pyTrim value) = [r] →
      get_customer_comm_method_id db comm_type value = .ok (r.id, r.customer_id)) ∧
    (db.customerComms.filter
        (fun m => m.ty == pyLower (pyTrim comm_type) && m.value == pyTrim value) = [] →
      get_customer_comm_method_id db comm_type value =
        .error (.valueError
          ("customer communication method not found for value: " ++ pyTrim value))) ∧
    (∀ r1 r2 rs, db.customerComms.filter
        (fun m => m.ty == pyLower (pyTrim comm_type) && m.value == pyTrim value)
          = r1 :: r2 :: rs →
      get_customer_comm_method_id db comm_type value =
        .error (.valueError
          ("multiple customer communication methods found for the same value: "
            ++ pyTrim value))) := by
  refine ⟨fun r h => ?_, fun h => ?_, fun r1 r2 rs h => ?_⟩ <;>
    simp only [get_customer_comm_method_id] <;> rw [h]

/-- Witness for C4: the three cases at concrete databases. -/
theorem customer_comm_lookup_contract_witness :
    get_customer_comm_method_id sampleDb "phone" "+12155550000" =
      .ok ("ccm-1", "cust-1") ∧
    get_customer_comm_method_id sampleDb "phone" "+19999999999" =
      .error (.valueError
        "customer communication method not found for value: +19999999999") ∧
    get_customer_comm_method_id
      { sampleDb with customerComms := sampleDb.customerComms ++
          [{ id := "ccm-9", customer_id := "cust-9", ty := "phone",
             value := "+12155550000" }] } "phone" "+12155550000" =
      .error (.valueError
        "multiple customer communication methods found for the same value: +12155550000")
      :=
  ⟨(customer_comm_lookup_contract sampleDb "phone" "+12155550000").1
      { id := "ccm-1", customer_id := "cust-1", ty := "phone", value := "+12155550000" }
      (by rfl),
    (customer_comm_lookup_contract sampleDb "phone" "+19999999999").2.1 (by rfl),
    (customer_comm_lookup_contract _ "phone" "+12155550000").2.2
      { id := "ccm-1", customer_id := "cust-1", ty := "phone", value := "+12155550000" }
      { id := "ccm-9", customer_id := "cust-9", ty := "phone", value := "+12155550000" }
      [] (by rfl)⟩

/-- The state after the interleaved schedule `lookup₁ ; lookup₂ ; create₁ ; create₂` of
two concurrent find-or-create calls for the same `(customer_id, type, value)`: two
contact rows and two comm-method rows for one logical contact. -/
def raceDbFinal : DB :=
  { sampleDb with
      contacts := [{ id := "id-0", customer_id := "cust-1",
                     first_name := none, last_name := none },
                   { id := "id-2", customer_id := "cust-1",
                     first_name := none, last_name := none }],
      contactComms := [{ id := "id-1", customer_contact_id := "id-0",
                         ty := "phone", value := "+15551230001" },
                       { id := "id-3", customer_contact_id := "id-2",
                         ty := "phone", value := "+15551230001" }],
      nextId := 4 }

/-- **C2 counterexample.** Two concurrent `get_customer_contact_comm_method_id` calls for
`("cust-1", "phone", "+15551230001")` on a state with no pre-existing row, interleaved as
`lookup₁ ; lookup₂ ; create₁ ; create₂`: both lookups (run against `sampleDb` before
either commit) fall through to the create phase; both create phases then succeed — the
second does not violate `uq_contact_comm_type_value`, because that constraint is scoped
by the fresh, distinct `customer_contact_id` each call generated.  The final state holds
2 `CustomerContact` and 2 `CustomerContactCommMethod` rows for the one key, and the two
calls return different id pairs — refuting "exactly one row of each and all N calls
return the same ids"; no constraint violation ever fires, so the claimed
violation-as-lookup retry (which the source nowhere implements) is never exercised. -/
theorem contact_race_counterexample :
    contact_resolve_phase sampleDb "cust-1" "phone" "+15551230001" = none ∧
    contact_create_phase sampleDb "cust-1" "phone" "+15551230001" =
      .ok (("id-1", "id-0"), sampleDbAfterResolve) ∧
    contact_create_phase sampleDbAfterResolve "cust-1" "phone" "+15551230001" =
      .ok (("id-3", "id-2"), raceDbFinal) ∧
    raceDbFinal.contacts.length = 2 ∧
    raceDbFinal.contactComms.length = 2 ∧
    (("id-1", "id-0") ≠ (("id-3", "id-2") : String × String)) :=
  ⟨rfl, rfl, rfl, rfl, rfl, by decide⟩

/-- **C2 (amended).** For sequential (non-overlapping) calls the find-or-create contract
holds: with no pre-existing row for `(customer_id, type, value)`, a call creates exactly
one `CustomerContact` and one `CustomerContactCommMethod` and returns their ids, and a
later call with the same key returns the same ids and creates nothing.  Under concurrent
interleaving the guarantee fails (see `contact_race_counterexample`): the uniqueness
constraint is scoped per contact id so it cannot reject the racing insert, and the source
has no constraint-violation-as-lookup retry.  The freshness hypotheses model `uuid4`
never colliding with existing row ids. -/
theorem contact_sequential_idempotent (db : DB) (customer_id comm_type value : String)
    (hnone : contactCommJoin db customer_id (pyLower (pyTrim comm_type))
      (pyTrim value) = [])
    (hfreshComm : ∀ cm ∈ db.contactComms, cm.customer_contact_id ≠ mkId db.nextId)
    (hfreshContact : ∀ cc ∈ db.contacts, cc.id ≠ mkId db.nextId) :
    ∃ db', get_customer_contact_comm_method_id db customer_id comm_type value =
        .ok ((mkId (db.nextId + 1), mkId db.nextId), db') ∧
      get_customer_contact_comm_method_id db' customer_id comm_type value =
        .ok ((mkId (db.nextId + 1), mkId db.nextId), db') ∧
      db'.contacts.length = db.contacts.length + 1 ∧
      db'.contactComms.length = db.contactComms.length + 1 := by
  refine ⟨{ db with
      contacts := db.contacts ++
        [{ id := mkId db.nextId, customer_id := customer_id,
           first_name := none, last_name := none }],
      contactComms := db.contactComms ++
        [{ id := mkId (db.nextId + 1), customer_contact_id := mkId db.nextId,
           ty := pyLower (pyTrim comm_type), value := pyTrim value }],
      nextId := db.nextId + 2 }, ?_, ?_, ?_, ?_⟩
  · have hany : db.contactComms.any (fun cm =>
        cm.customer_contact_id == mkId db.nextId &&
        cm.ty == pyLower (pyTrim comm_type) && cm.value == pyTrim value) = false := by
      rw [List.any_eq_false]
      intro cm hcm
      simp only [Bool.and_eq_true, beq_iff_eq, not_and]
      intro h1
      exact absurd h1.1 (hfreshComm cm hcm)
    simp only [get_customer_contact_comm_method_id]
    rw [hnone]
    simp [hany]
  · have hJ := contactCommJoin_after_create db customer_id
      (pyLower (pyTrim comm_type)) (pyTrim value) (db.nextId + 2)
      { id := mkId db.nextId, customer_id := customer_id,
        first_name := none, last_name := none }
      { id := mkId (db.nextId + 1), customer_contact_id := mkId db.nextId,
        ty := pyLower (pyTrim comm_type), value := pyTrim value }
      rfl rfl rfl rfl hnone hfreshComm hfreshContact
    simp only [get_customer_contact_comm_method_id]
    rw [hJ]
  · simp
  · simp

/-- Witness for the amended C2 on `sampleDb` with no pre-existing contact row. -/
theorem contact_sequential_idempotent_witness :
    ∃ db', get_customer_contact_comm_method_id sampleDb "cust-1" "phone"
        "+15551230001" =
        .ok ((mkId (sampleDb.nextId + 1), mkId sampleDb.nextId), db') ∧
      get_customer_contact_comm_method_id db' "cust-1" "phone" "+15551230001" =
        .ok ((mkId (sampleDb.nextId + 1), mkId sampleDb.nextId), db') ∧
      db'.contacts.length = sampleDb.contacts.length + 1 ∧
      db'.contactComms.length = sampleDb.contactComms.length + 1 :=
  contact_sequential_idempotent sampleDb "cust-1" "phone" "+15551230001" (by rfl)
    (by simp [sampleDb]) (by simp [sampleDb])

/-- **C5.** `get_customer_contact_comm_method_id` on `(customer_id, type, value)`: with
exactly one contact comm-method row scoped to that customer matching, it returns that
row's `(comm_method_id, contact_id)` and creates nothing (the state is returned
unchanged); with no match, it creates one new `CustomerContact` with null
`first_name`/`last_name` and one new `CustomerContactCommMethod` referencing it in the
single state transition that models the one commit ending the unit of work (both rows
appear together, or on any error the state is unchanged); with more than one match it
fails with the AmbiguousIdentity-class `ValueError`.  The freshness hypothesis of the
create case models `uuid4` never colliding with an existing row id. -/
theorem contact_find_or_create_contract (db : DB) (customer_id comm_type value : String) :
    (∀ m c, contactCommJoin db customer_id (pyLower (pyTrim comm_type)) (pyTrim value) =
        [(m, c)] →
      get_customer_contact_comm_method_id db customer_id comm_type value =
        .ok ((m, c), db)) ∧
    (contactCommJoin db customer_id (pyLower (pyTrim comm_type)) (pyTrim value) = [] →
      (∀ cm ∈ db.contactComms, cm.customer_contact_id ≠ mkId db.nextId) →
      get_customer_contact_comm_method_id db customer_id comm_type value =
        .ok ((mkId (db.nextId + 1), mkId db.nextId),
          { db with
              contacts := db.contacts ++
                [{ id := mkId db.nextId, customer_id := customer_id,
                   first_name := none, last_name := none }],
              contactComms := db.contactComms ++
                [{ id := mkId (db.nextId + 1), customer_contact_id := mkId db.nextId,
                   ty := pyLower (pyTrim comm_type), value := pyTrim value }],
              nextId := db.nextId + 2 })) ∧
    (∀ r1 r2 rs, contactCommJoin db customer_id (pyLower (pyTrim comm_type))
        (pyTrim value) = r1 :: r2 :: rs →
      get_customer_contact_comm_method_id db customer_id comm_type value =
        .error (.valueError
          ("multiple customer contacts communication methods found for the same value: "
            ++ pyTrim value))) := by
  refine ⟨fun m c h => ?_, fun h hfresh => ?_, fun r1 r2 rs h => ?_⟩
  · simp only [get_customer_contact_comm_method_id]
    rw [h]
  · have hany : db.contactComms.any (fun cm =>
        cm.customer_contact_id == mkId db.nextId &&
        cm.ty == pyLower (pyTrim comm_type) && cm.value == pyTrim value) = false := by
      rw [List.any_eq_false]
      intro cm hcm
      simp only [Bool.and_eq_true, beq_iff_eq, not_and]
      intro h1
      exact absurd h1.1 (hfresh cm hcm)
    simp only [get_customer_contact_comm_method_id]
    rw [h]
    simp [hany]
  · simp only [get_customer_contact_comm_method_id]
    rw [h]

/-- Witness for C5: on `sampleDb` the create case lazily adds contact `id-0` with comm
method `id-1`; on the produced state the find case returns those ids and changes
nothing; with a duplicated comm-method row the call fails with the ambiguity error. -/
theorem contact_find_or_create_contract_witness :
    get_customer_contact_comm_method_id sampleDb "cust-1" "phone" "+15551230001" =
      .ok (("id-1", "id-0"), sampleDbAfterResolve) ∧
    get_customer_contact_comm_method_id sampleDbAfterResolve "cust-1" "phone"
        "+15551230001" = .ok (("id-1", "id-0"), sampleDbAfterResolve) ∧
    get_customer_contact_comm_method_id
      { sampleDbAfterResolve with
          contactComms := sampleDbAfterResolve.contactComms ++
            [{ id := "id-9", customer_contact_id := "id-0", ty := "phone",
               value := "+15551230001" }] } "cust-1" "phone" "+15551230001" =
      .error (.valueError
        "multiple customer contacts communication methods found for the same value: +15551230001")
      :=
  ⟨(contact_find_or_create_contract sampleDb "cust-1" "phone" "+15551230001").2.1
      (by rfl) (by simp [sampleDb]),
    (contact_find_or_create_contract sampleDbAfterResolve "cust-1" "phone"
      "+15551230001").1 "id-1" "id-0" (by rfl),
    (contact_find_or_create_contract _ "cust-1" "phone" "+15551230001").2.2
      ("id-1", "id-0") ("id-9", "id-0") [] (by rfl)⟩

/-- **C10.** The payload field list declares `body` and `attachments` optional
(`required = False`), yet `validate_payload` enforces the per-type requirement: every
payload whose `type` lower-cases to `"sms"` fails validation when `body` is absent, and
every payload whose `type` lower-cases to `"mms"` fails validation when `attachments` is
absent. -/
theorem sms_mms_conditional_required :
    (SMS_PAYLOAD_FIELDS.any (fun i => i.field == "body" && i.required == false)) = true ∧
    (SMS_PAYLOAD_FIELDS.any
      (fun i => i.field == "attachments" && i.required == false)) = true ∧
    (∀ data s oneOf, pget data "type" = some (.str s) → pyLower s = "sms" →
      pget data "body" = none →
      ∃ e, validate_payload data SMS_PAYLOAD_FIELDS oneOf = .error e) ∧
    (∀ data s oneOf, pget data "type" = some (.str s) → pyLower s = "mms" →
      pget data "attachments" = none →
      ∃ e, validate_payload data SMS_PAYLOAD_FIELDS oneOf = .error e) := by
  refine ⟨by decide, by decide,
    fun data s oneOf hty hlow hmiss => ?_, fun data s oneOf hty hlow hmiss => ?_⟩
  · have hcf : checkField data "sms" { field := "body", ty := .str, required := false } =
        ["payload missing required field: body"] := by
      simp [checkField, hmiss]
    have hmem : "payload missing required field: body" ∈
        SMS_PAYLOAD_FIELDS.flatMap (checkField data "sms") := by
      refine List.mem_flatMap.mpr
        ⟨{ field := "body", ty := .str, required := false },
          by simp [SMS_PAYLOAD_FIELDS], ?_⟩
      rw [hcf]; exact List.mem_singleton.mpr rfl
    have hne : (SMS_PAYLOAD_FIELDS.flatMap (checkField data "sms")).isEmpty = false := by
      rcases hE : SMS_PAYLOAD_FIELDS.flatMap (checkField data "sms") with _ | ⟨a, l⟩
      · rw [hE] at hmem; cases hmem
      · simp [List.isEmpty]
    refine ⟨.httpAbort 400 (String.intercalate "; "
      (SMS_PAYLOAD_FIELDS.flatMap (checkField data "sms"))), ?_⟩
    simp [validate_payload, hty, hlow, hne]
  · have hcf : checkField data "mms"
        { field := "attachments", ty := .listStr, required := false } =
        ["payload missing required field: attachments"] := by
      simp [checkField, hmiss]
    have hmem : "payload missing required field: attachments" ∈
        SMS_PAYLOAD_FIELDS.flatMap (checkField data "mms") := by
      refine List.mem_flatMap.mpr
        ⟨{ field := "attachments", ty := .listStr, required := false },
          by simp [SMS_PAYLOAD_FIELDS], ?_⟩
      rw [hcf]; exact List.mem_singleton.mpr rfl
    have hne : (SMS_PAYLOAD_FIELDS.flatMap (checkField data "mms")).isEmpty = false := by
      rcases hE : SMS_PAYLOAD_FIELDS.flatMap (checkField data "mms") with _ | ⟨a, l⟩
      · rw [hE] at hmem; cases hmem
      · simp [List.isEmpty]
    refine ⟨.httpAbort 400 (String.intercalate "; "
      (SMS_PAYLOAD_FIELDS.flatMap (checkField data "mms"))), ?_⟩
    simp [validate_payload, hty, hlow, hne]

/-- Witness for C10: an sms payload without `body` and an mms payload without
`attachments` both fail validation. -/
theorem sms_mms_conditional_required_witness :
    (∃ e, validate_payload [("type", JValue.str "sms")] SMS_PAYLOAD_FIELDS none =
      .error e) ∧
    (∃ e, validate_payload [("type", JValue.str "mms")] SMS_PAYLOAD_FIELDS none =
      .error e) :=
  ⟨sms_mms_conditional_required.2.2.1 [("type", JValue.str "sms")] "sms" none rfl rfl rfl,
    sms_mms_conditional_required.2.2.2 [("type", JValue.str "mms")] "mms" none rfl rfl
      rfl⟩

/-- **C1.** For an outbound request that reaches delivery (validation and participant
resolution succeeded), if delivery fails — timeouts exhausting the retry budget or a
non-timeout delivery error, both of which make the retry wrapper return `false` — then
the orchestrator responds with the 500 server-error outcome and the `messages` table is
exactly what it was before the request: no `Message` row is created, the record step
being behind the delivery check. -/
theorem delivery_before_record (db : DB) (data : Payload) (comm_type : String)
    (payload_fields : List FieldSpec) (delivery : Nat → CallOutcome)
    (p : Participants) (db1 : DB)
    (hv : validate_payload data payload_fields none = .ok ())
    (hp : get_participants db data "outbound" comm_type = .ok (p, db1))
    (hfail : (api_retry_with_backoff delivery).result = false) :
    process_outbound_message db data comm_type payload_fields delivery = (500, db1) ∧
    db1.messages = db.messages := by
  constructor
  · simp only [process_outbound_message]
    rw [hv, hp, hfail]
    rfl
  · exact (get_participants_preserves db data "outbound" comm_type p db1 hp).1

/-- Witness for C1: the outbound sms request on `sampleDb` with an always-timing-out
delivery endpoint gets the 500 outcome and leaves `messages` empty (contact rows,
resolved before delivery, do persist). -/
theorem delivery_before_record_witness :
    process_outbound_message sampleDb outSmsPayload "phone"
      (SMS_PAYLOAD_FIELDS.filter (fun f => f.field != "messaging_provider_id"))
      (fun _ => .timeout) = (500, sampleDbAfterResolve) ∧
    sampleDbAfterResolve.messages = sampleDb.messages :=
  delivery_before_record sampleDb outSmsPayload "phone"
    (SMS_PAYLOAD_FIELDS.filter (fun f => f.field != "messaging_provider_id"))
    (fun _ => .timeout) outSmsParticipants sampleDbAfterResolve (by rfl) (by rfl)
    (by rfl)

/-- **C8 counterexample.** An inbound request whose customer lookup hits the
AmbiguousIdentity-class integrity error (two rows for one key) is answered with status
400 — the same class as validation and NotFound errors — not 500: the orchestrator's
catch-all `except Exception` maps every raised error to 400, so the claimed 500-class
outcome for integrity errors does not occur. -/
theorem ambiguity_status_counterexample :
    validate_payload inSmsPayload SMS_PAYLOAD_FIELDS none = .ok () ∧
    get_customer_comm_method_id dbAmbiguous "phone" "+12155550000" =
      .error (.valueError
        "multiple customer communication methods found for the same value: +12155550000")
      ∧
    process_inbound_message dbAmbiguous inSmsPayload "phone" SMS_PAYLOAD_FIELDS none =
      (400, dbAmbiguous) ∧
    (process_inbound_message dbAmbiguous inSmsPayload "phone" SMS_PAYLOAD_FIELDS
      none).1 ≠ 500 :=
  ⟨rfl, rfl, rfl, by decide⟩

/-- **C8 (amended).** A request failing in identity resolution — including with the
AmbiguousIdentity-class integrity error — receives the 400 status, the same class used
for validation and NotFound errors; it is not distinguished as a 500.  (The 500 status is
produced only for outbound delivery failure.) -/
theorem resolution_errors_yield_400 (db : DB) (data : Payload) (comm_type : String)
    (payload_fields : List FieldSpec) (optional_fields : Option (List String))
    (delivery : Nat → CallOutcome) (e e' : PyErr) :
    (get_participants db data "inbound" comm_type = .error e →
      process_inbound_message db data comm_type payload_fields optional_fields =
        (400, db)) ∧
    (get_participants db data "outbound" comm_type = .error e' →
      process_outbound_message db data comm_type payload_fields delivery =
        (400, db)) := by
  constructor
  · intro he
    simp only [process_inbound_message]
    rcases hv : validate_payload data payload_fields optional_fields with e2 | u
    · rfl
    · cases u
      rw [he]
  · intro he
    simp only [process_outbound_message]
    rcases hv : validate_payload data payload_fields none with e2 | u
    · rfl
    · cases u
      rw [he]

/-- Witness for the amended C8: the ambiguous customer key yields status 400 on both the
inbound and the outbound path. -/
theorem resolution_errors_yield_400_witness :
    process_inbound_message dbAmbiguous inSmsPayload "phone" SMS_PAYLOAD_FIELDS none =
      (400, dbAmbiguous) ∧
    process_outbound_message dbAmbiguous outSmsPayload "phone"
      (SMS_PAYLOAD_FIELDS.filter (fun f => f.field != "messaging_provider_id"))
      (fun _ => .success) = (400, dbAmbiguous) :=
  ⟨(resolution_errors_yield_400 dbAmbiguous inSmsPayload "phone" SMS_PAYLOAD_FIELDS none
      (fun _ => .success)
      (.valueError
        "multiple customer communication methods found for the same value: +12155550000")
      (.valueError
        "multiple customer communication methods found for the same value: +12155550000")).1
      (by rfl),
    (resolution_errors_yield_400 dbAmbiguous outSmsPayload "phone"
      (SMS_PAYLOAD_FIELDS.filter (fun f => f.field != "messaging_provider_id")) none
      (fun _ => .success)
      (.valueError
        "multiple customer communication methods found for the same value: +12155550000")
      (.valueError
        "multiple customer communication methods found for the same value: +12155550000")).2
      (by rfl)⟩

/-- **C9 counterexample.** An outbound email with neither `body` nor `attachments` is not
rejected: `process_outbound_message` passes no `optional_fields` to `validate_payload`,
so the one-of check never runs on the outbound path — the request passes validation,
is delivered, and a Message row is created (status 200), refuting the claim for the
outbound half of "inbound or outbound". -/
theorem outbound_email_missing_content_counterexample :
    pget outEmailNoContent "body" = none ∧
    pget outEmailNoContent "attachments" = none ∧
    validate_payload (pset outEmailNoContent "type" (.str "email"))
      (EMAIL_PAYLOAD_FIELDS.filter (fun f => f.field != "xillio_id")) none = .ok () ∧
    (outbound_email dbEmail outEmailNoContent (fun _ => .success)).1 = 200 ∧
    (outbound_email dbEmail outEmailNoContent (fun _ => .success)).2.messages.length =
      1 :=
  ⟨rfl, rfl, rfl, rfl, rfl⟩

/-- **C9 (amended).** Only the inbound email path enforces the content rule: every
inbound email request with both `body` and `attachments` absent fails validation with
the 400 outcome and creates no rows (the state is returned unchanged); the outbound
email path performs no such check (see `outbound_email_missing_content_counterexample`). -/
theorem inbound_email_requires_content (db : DB) (data : Payload)
    (hbody : pget data "body" = none) (hatt : pget data "attachments" = none) :
    inbound_email db data = (400, db) := by
  have hb : pget (pset data "type" (.str "email")) "body" = none := by
    rw [pget_pset_ne data "type" "body" _ (by decide)]
    exact hbody
  have ha : pget (pset data "type" (.str "email")) "attachments" = none := by
    rw [pget_pset_ne data "type" "attachments" _ (by decide)]
    exact hatt
  have hty : pget (pset data "type" (.str "email")) "type" = some (.str "email") :=
    pget_pset_self data "type" _
  have hone : check_one_of_fields (pset data "type" (.str "email"))
      (some ["body", "attachments"]) =
      .error (.httpAbort 400
        "one of the following fields must be provided in payload: body, attachments") := by
    simp [check_one_of_fields, hb, ha]
    rfl
  have hval : validate_payload (pset data "type" (.str "email")) EMAIL_PAYLOAD_FIELDS
      (some ["body", "attachments"]) =
      .error (.httpAbort 400
        "one of the following fields must be provided in payload: body, attachments") := by
    simp only [validate_payload, hty]
    have hL : pyLower "email" = "email" := rfl
    rw [hL]
    rw [show (!(["sms", "mms", "email"].contains "email")) = false from rfl]
    simp only [Bool.false_eq_true, if_false]
    rw [show (("email" : String) == "email") = true from rfl]
    simp only [if_true]
    rw [hone]
  simp only [inbound_email, process_inbound_message]
  rw [hval]

/-- Witness for the amended C9 at a concrete inbound email payload without content. -/
theorem inbound_email_requires_content_witness :
    inbound_email dbEmail
      [("from", .str "jane@x.com"), ("to", .str "info@acme.com"),
       ("xillio_id", .str "x-1"),
       ("timestamp", .str "2024-01-01T10:00:00+00:00")] = (400, dbEmail) :=
  inbound_email_requires_content dbEmail
    [("from", .str "jane@x.com"), ("to", .str "info@acme.com"),
     ("xillio_id", .str "x-1"),
     ("timestamp", .str "2024-01-01T10:00:00+00:00")] rfl rfl

end MessagingService
